import Mathlib

/-!
Verification of the signalling overlay of the webrtc-direct transport.

The definitions below are a shallow embedding of the transport's source:

* `src/signal-message.ts` — the signalling message types;
* `src/server.ts` — the relay router (`WebRTCDirectServer`: seen-cache,
  peer table, relay channel list, forwarding) and the signalling-channel
  listener (`WebRTCDirectSigServer`);
* `src/index.ts` — the dial engine (`WebRTCDirect.dial` path selection, the
  signalling-channel open handler, `filter`);
* `src/listener.ts` — the listener facade (`WebRTCDirectListener.listen`).

Data channels are identified by natural numbers (JS object identity of
`RTCDataChannel` values); raw wire bytes are lists of naturals; the sha256
digest used by the seen-cache is an abstract function parameter; sends are
recorded as `(channel, payload)` pairs instead of performed.
-/

namespace WebRTCDirect

/-- Raw on-the-wire bytes of a signalling message (a JS `Uint8Array`). -/
abbrev Bytes := List Nat

/-- Identity of an `RTCDataChannel` (JS object identity). -/
abbrev ChannelId := Nat

/-- Offer/answer envelope (`Signal` of `@cerc-io/webrtc-peer`): a `type`
tag (`offer` / `answer` / `candidate`) and the opaque session payload. -/
structure Signal where
  type : String
  sdp : String
deriving DecidableEq, Repr

/-- Model of `ConnectRequest` of `src/signal-message.ts` (without its literal `type`
tag, which the embedding keeps in the `SignallingMessage` constructor). The
`signal` is carried parsed; the JSON string round-trip is the identity. -/
structure ConnectRequest where
  src : String
  dst : String
  signal : Signal
deriving DecidableEq, Repr

/-- Model of `ConnectResponse` of `src/signal-message.ts`. -/
structure ConnectResponse where
  src : String
  dst : String
  signal : Signal
deriving DecidableEq, Repr

/-- Model of `SignallingMessage` of `src/signal-message.ts`: the tagged union of the
three signalling message kinds. -/
inductive SignallingMessage where
  | joinRequest (peerId : String)
  | connectRequest (req : ConnectRequest)
  | connectResponse (resp : ConnectResponse)
deriving DecidableEq, Repr

/-- Model of `SignallingChannelType` of `src/signal-message.ts`. -/
inductive SignallingChannelType where
  | none
  | peer
  | relay
deriving DecidableEq, Repr

/-- Model of `SEEN_CACHE_TTL` of `src/constants.ts` (30 seconds, in ms). -/
def SEEN_CACHE_TTL : Nat := 30 * 1000

/-- The `timed-cache` instance `seenCache` of `WebRTCDirectServer`
(`src/server.ts`): keys with their expiry instants. All stored values are
`true`, so only the key and expiry are kept. -/
structure TimedCache where
  entries : List (String × Nat)
deriving DecidableEq, Repr

/-- Model of `Cache.get`: a key is present while `now` is before its expiry. -/
def TimedCache.get (c : TimedCache) (now : Nat) (k : String) : Option Bool :=
  if c.entries.any (fun e => e.1 == k && decide (now < e.2)) then some true else none

/-- Model of `Cache.put` with the default TTL (`SEEN_CACHE_TTL`). -/
def TimedCache.put (c : TimedCache) (now : Nat) (k : String) : TimedCache :=
  ⟨(k, now + SEEN_CACHE_TTL) :: c.entries⟩

/-- Model of `WebRTCDirectServer._isMsgSeen` (`src/server.ts`): hash the raw bytes
(`sha256`, base64 — the abstract `hash` parameter), look the digest up in
the seen-cache; if present report `true`, otherwise insert the digest with
the default TTL and report `false`. Returns the answer and the new cache. -/
def isMsgSeen (hash : Bytes → String) (cache : TimedCache) (now : Nat) (msg : Bytes) :
    Bool × TimedCache :=
  let msgIdStr := hash msg
  match cache.get now msgIdStr with
  | some _ => (true, cache)
  | none => (false, cache.put now msgIdStr)

/-- Mutable state of the relay router `WebRTCDirectServer` (`src/server.ts`):
`peerSignallingChannelMap`, `relaySignallingChannels` and `seenCache`. -/
structure WebRTCDirectServerState where
  peerSignallingChannelMap : List (String × ChannelId)
  relaySignallingChannels : List ChannelId
  seenCache : TimedCache
deriving DecidableEq, Repr

/-- Model of `WebRTCDirectServer._forwardSignallingMessage` (`src/server.ts`): if the
destination peer has a signalling channel in the peer map, send the raw
bytes there; otherwise send them on every tracked relay signalling channel
except the source channel. Sends are returned as `(channel, bytes)` pairs
(send failures in the source are logged and skipped, so they do not change
which sends are attempted). -/
def forwardSignallingMessage (st : WebRTCDirectServerState) (fromCh : ChannelId)
    (msg : Bytes) (dst : String) : List (ChannelId × Bytes) :=
  match st.peerSignallingChannelMap.lookup dst with
  | some ch => [(ch, msg)]
  | none =>
    (st.relaySignallingChannels.filter (fun c => c != fromCh)).map (fun c => (c, msg))

/-- Model of `WebRTCDirectServer._handlePeerSignallingMessage` (`src/server.ts`):
consult the seen-cache on the raw bytes; drop when seen, forward
otherwise. Returns the new state and the attempted sends. -/
def handlePeerSignallingMessage (hash : Bytes → String) (st : WebRTCDirectServerState)
    (now : Nat) (fromCh : ChannelId) (msg : Bytes) (dst : String) :
    WebRTCDirectServerState × List (ChannelId × Bytes) :=
  let r := isMsgSeen hash st.seenCache now msg
  let st2 := { st with seenCache := r.2 }
  if r.1 then (st2, [])
  else (st2, forwardSignallingMessage st2 fromCh msg dst)

/-- The `trackPeerSignallingChannel` closure of
`WebRTCDirectServer._registerSignallingChannelHandler` (`src/server.ts`):
`peerSignallingChannelMap.set(peerId, signallingChannel)`. -/
def trackPeerSignallingChannel (st : WebRTCDirectServerState) (peerId : String)
    (ch : ChannelId) : WebRTCDirectServerState :=
  { st with
    peerSignallingChannelMap :=
      (peerId, ch) :: st.peerSignallingChannelMap.filter (fun e => e.1 != peerId) }

/-- Destination peer id a connect message is routed by (`msg.dst` in the
relay's message handlers, read only after the `JoinRequest` case exits). -/
def SignallingMessage.dstOf : SignallingMessage → String
  | .joinRequest _ => ""
  | .connectRequest req => req.dst
  | .connectResponse resp => resp.dst

/-- Message handler installed on a peer- or relay-type signalling channel by
`WebRTCDirectServer._registerSignallingChannelHandler` (`src/server.ts`):
a `JoinRequest` on a relay-type channel raises an error; a `JoinRequest` on
a peer-type channel records the channel in the peer map; every other
message goes through the seen-cache and the forwarding rule. -/
def handleSignallingChannelMessage (hash : Bytes → String) (type : SignallingChannelType)
    (st : WebRTCDirectServerState) (now : Nat) (fromCh : ChannelId) (raw : Bytes)
    (msg : SignallingMessage) :
    Except String (WebRTCDirectServerState × List (ChannelId × Bytes)) :=
  match msg with
  | .joinRequest peerId =>
    if type = SignallingChannelType.relay then
      .error "Unexpected JoinRequest over relay signalling channel"
    else
      .ok (trackPeerSignallingChannel st peerId fromCh, [])
  | m => .ok (handlePeerSignallingMessage hash st now fromCh raw m.dstOf)

/-- Message handler installed on a dialled relay-to-relay signalling channel
by `WebRTCDirectServer.registerSignallingChannel` (`src/server.ts`): any
`JoinRequest` raises an error, everything else is forwarded. -/
def relayChannelHandleMessage (hash : Bytes → String) (st : WebRTCDirectServerState)
    (now : Nat) (fromCh : ChannelId) (raw : Bytes) (msg : SignallingMessage) :
    Except String (WebRTCDirectServerState × List (ChannelId × Bytes)) :=
  match msg with
  | .joinRequest _ => .error "Unexpected JoinRequest over relay signalling channel"
  | m => .ok (handlePeerSignallingMessage hash st now fromCh raw m.dstOf)

/-- A sequence of `message` events dispatched to the handler of
`_registerSignallingChannelHandler`. Each event invocation is independent:
an error thrown by one invocation leaves the router state and the handler
registration untouched, so later messages are still processed. -/
def processSignallingChannelMessages (hash : Bytes → String) (type : SignallingChannelType)
    (st : WebRTCDirectServerState) (now : Nat) (fromCh : ChannelId)
    (msgs : List (Bytes × SignallingMessage)) :
    WebRTCDirectServerState × List (ChannelId × Bytes) :=
  msgs.foldl
    (fun acc rm =>
      match handleSignallingChannelMessage hash type acc.1 now fromCh rm.1 rm.2 with
      | .ok (st2, sends) => (st2, acc.2 ++ sends)
      | .error _ => acc)
    (st, [])

/-- Mutable state of the signalling-channel listener `WebRTCDirectSigServer`
(`src/server.ts`): the listening multiaddr (kept as its string form, the
only way the source uses it here), the tracked receiver channels (by
identity) and the registered signalling channel. -/
structure WebRTCDirectSigServerState where
  multiAddr : String
  channels : List Nat
  signallingChannel : Option ChannelId
deriving DecidableEq, Repr

/-- Model of `WebRTCDirectSigServer.processRequest` (`src/server.ts`). Parameters
`newCh` and `answerSignal` stand for the external peer engine: `newCh` is
the identity of the `WebRTCReceiver` the call creates and `answerSignal`
the local signal that receiver later emits (the answer). The reply sent in
the receiver's `signal` handler is returned as a `(channel, message)`
pair. The leading `assert(this.signallingChannel)` is the error case. -/
def sigProcessRequest (st : WebRTCDirectSigServerState) (request : ConnectRequest)
    (newCh : Nat) (answerSignal : Signal) :
    Except String (WebRTCDirectSigServerState × List (ChannelId × SignallingMessage)) :=
  match st.signallingChannel with
  | Option.none => .error "assert failed: this.signallingChannel"
  | some sc =>
    if request.signal.type ≠ "offer" then
      .ok (st, [])
    else
      .ok ({ st with channels := st.channels ++ [newCh] },
        [(sc, .connectResponse
          { src := request.dst, dst := request.src, signal := answerSignal })])

/-- The `handleMessage` closure of
`WebRTCDirectSigServer.registerSignallingChannel` (`src/server.ts`):
`ConnectRequest` messages go to `processRequest`, everything else is
ignored. -/
def sigHandleMessage (st : WebRTCDirectSigServerState) (msg : SignallingMessage)
    (newCh : Nat) (answerSignal : Signal) :
    Except String (WebRTCDirectSigServerState × List (ChannelId × SignallingMessage)) :=
  match msg with
  | .connectRequest req => sigProcessRequest st req newCh answerSignal
  | _ => .ok (st, [])

/-- Remote address of the connection emitted in the `ready` handler of
`WebRTCDirectSigServer.processRequest` (`src/server.ts`): the listening
multiaddr extended with the p2p component of the request's `dst`. -/
def sigReadyRemoteAddr (st : WebRTCDirectSigServerState) (request : ConnectRequest) :
    String :=
  st.multiAddr ++ "/p2p/" ++ request.dst

/-- Model of `WebRTCDirectNodeType` of `src/index.ts`. -/
inductive WebRTCDirectNodeType where
  | peer
  | relay
deriving DecidableEq, Repr

/-- Transport-level fields of `WebRTCDirect` (`src/index.ts`) that the dial
path selection reads. -/
structure DialTransportConfig where
  enableSignalling : Bool
  nodeType : WebRTCDirectNodeType
  relayPeerId : Option String
  signallingChannel : Option ChannelId
deriving DecidableEq, Repr

/-- Observations of the dialled multiaddr used by `dial`:
`ma.toString().includes(P2P_WEBRTC_STAR_ID)` and `ma.getPeerId()`. -/
structure DialAddr where
  hasWebRTCStarId : Bool
  peerId : Option String
deriving DecidableEq, Repr

/-- Continuations of `dial` (`src/index.ts`) that construct a
`WebRTCInitiator` engine instance: `_connect` with the given
`signalling_channel` type, or `_connectUsingSignallingChannel`. -/
inductive DialPath where
  | connect (scType : SignallingChannelType)
  | connectUsingSignallingChannel
deriving DecidableEq, Repr

/-- Errors `dial` (`src/index.ts`) raises before reaching either engine
constructor. `rejectedAddress` is the star-address-while-disabled error,
`relayUnavailable` the missing-signalling-channel error, `assertFailed`
the `assert(this.relayPeerId != null)` in `_dialUsingSignallingChannel`. -/
inductive DialError where
  | rejectedAddress
  | relayUnavailable
  | assertFailed
deriving DecidableEq, Repr

/-- The JS strict equality `ma.getPeerId() === this.relayPeerId`: true only
when both sides are present strings and equal (a `null` never equals an
`undefined`). -/
def jsStrictEqOpt (a b : Option String) : Bool :=
  match a, b with
  | some x, some y => x == y
  | _, _ => false

/-- Path selection of `WebRTCDirect.dial` / `_dialWithSignallingEnabled` /
`_dialUsingSignallingChannel` (`src/index.ts`), up to the point where an
engine instance is created (the `DialPath` result). Every `.error` is
raised before any `WebRTCInitiator` is constructed. -/
def dialPathSelection (cfg : DialTransportConfig) (ma : DialAddr) :
    Except DialError DialPath :=
  if cfg.enableSignalling then
    if ma.hasWebRTCStarId then
      if cfg.relayPeerId = Option.none then .error .assertFailed
      else if cfg.signallingChannel = Option.none then .error .relayUnavailable
      else .ok .connectUsingSignallingChannel
    else
      match cfg.nodeType with
      | .peer =>
        .ok (.connect (if jsStrictEqOpt ma.peerId cfg.relayPeerId then
          SignallingChannelType.peer else SignallingChannelType.none))
      | .relay => .ok (.connect SignallingChannelType.relay)
  else
    if ma.hasWebRTCStarId then .error .rejectedAddress
    else .ok (.connect SignallingChannelType.none)

/-- Effects of the signalling channel `open` handler installed by
`WebRTCDirect._registerSignallingChannelHandler` (`src/index.ts`), in
source order. -/
inductive SCAction where
  | startClosingInterval
  | registerWithListener
  | setSignallingChannelField
  | send (msg : SignallingMessage)
  | resolveDeferred
deriving DecidableEq, Repr

/-- The `open` handler of `_registerSignallingChannelHandler`
(`src/index.ts`): start the channel-closing monitor, register the channel
with the peer listener when one exists, and — only for a peer-type
channel — store it in `this.signallingChannel` and send a `JoinRequest`
with the node's own peer id; finally resolve the deferred readiness. -/
def signallingChannelOpenActions (type : SignallingChannelType) (selfPeerId : String)
    (peerListenerPresent : Bool) : List SCAction :=
  [SCAction.startClosingInterval]
    ++ (if peerListenerPresent then [SCAction.registerWithListener] else [])
    ++ (if type = SignallingChannelType.peer then
          [SCAction.setSignallingChannelField,
           SCAction.send (.joinRequest selfPeerId)]
        else [])
    ++ [SCAction.resolveDeferred]

/-- Messages sent by a list of open-handler effects. -/
def sentMessages (acts : List SCAction) : List SignallingMessage :=
  acts.filterMap (fun a =>
    match a with
    | .send m => some m
    | _ => Option.none)

/-- Events that drive the readiness coordination of one establishment
attempt: the engine's `ready` event (application data channel open) and
the auxiliary signalling channel's `open` event. -/
inductive ConnEvent where
  | ready
  | scOpen
deriving DecidableEq, Repr

/-- State of the readiness coordination shared by the dial side
(`onReady` and `deferredSignallingChannel` in `WebRTCDirect._connect`,
`src/index.ts`) and the HTTP-listen side (the `ready` handler and
`deferredSignallingChannel` in `WebRTCDirectServer.processRequest`,
`src/server.ts`). `emitted` records that the connection was surrendered
upward (the dial promise resolved, resp. the `connection` event fired). -/
structure ConnEstState where
  scRequested : Bool
  deferredResolved : Bool
  readyFired : Bool
  emitted : Bool
deriving DecidableEq, Repr

/-- Initial coordination state: the deferred readiness is resolved
immediately exactly when no signalling channel was requested. -/
def initConnEstState (scRequested : Bool) : ConnEstState :=
  { scRequested := scRequested
    deferredResolved := !scRequested
    readyFired := false
    emitted := false }

/-- One event of the readiness coordination: `ready` marks the application
data channel ready and emits if the deferred readiness has resolved
(`await deferredSignallingChannel.promise` returns at once); `scOpen`
resolves the deferred readiness and lets a pending `ready` continuation
emit. -/
def connEstStep (st : ConnEstState) : ConnEvent → ConnEstState
  | .ready =>
    let st2 := { st with readyFired := true }
    if st2.deferredResolved then { st2 with emitted := true } else st2
  | .scOpen =>
    let st2 := { st with deferredResolved := true }
    if st2.readyFired then { st2 with emitted := true } else st2

/-- Run of one establishment attempt over its event sequence. -/
def connEstRun (scRequested : Bool) (evs : List ConnEvent) : ConnEstState :=
  evs.foldl connEstStep (initConnEstState scRequested)

/-- Model of `CODE_P2P` of `src/constants.ts`. -/
def CODE_P2P : Nat := 421

/-- Model of `CODE_CIRCUIT` of `src/constants.ts`. -/
def CODE_CIRCUIT : Nat := 290

/-- Model of `P2P_WEBRTC_STAR_ID` of `src/constants.ts`. -/
def P2P_WEBRTC_STAR_ID : String := "p2p-webrtc-star"

/-- Observations of a multiaddr that `WebRTCDirect.filter`
(`src/index.ts`) reads: its protocol codes and names, its peer id, and
whether `mafmt.WebRTCDirect` matches it after one, respectively two,
`decapsulateCode(CODE_P2P)` steps. -/
structure MAddr where
  protoCodes : List Nat
  protoNames : List String
  peerId : Option String
  decapP2pMatchesWebRTCDirect : Bool
  decapP2pTwiceMatchesWebRTCDirect : Bool
deriving DecidableEq, Repr

/-- The per-address predicate of `WebRTCDirect.filter` (`src/index.ts`). -/
def filterPredicate (enableSignalling : Bool) (relayPeerId : Option String)
    (ma : MAddr) : Bool :=
  if ma.protoCodes.contains CODE_CIRCUIT then false
  else if ma.protoNames.contains P2P_WEBRTC_STAR_ID then
    if !enableSignalling then false
    else if ma.decapP2pMatchesWebRTCDirect then jsStrictEqOpt ma.peerId relayPeerId
    else ma.decapP2pTwiceMatchesWebRTCDirect
  else ma.decapP2pMatchesWebRTCDirect

/-- Model of `WebRTCDirect.filter` (`src/index.ts`): `multiaddrs.filter(...)`. -/
def wdFilter (enableSignalling : Bool) (relayPeerId : Option String)
    (mas : List MAddr) : List MAddr :=
  mas.filter (filterPredicate enableSignalling relayPeerId)

/-- State of `WebRTCDirectListener` (`src/listener.ts`) that `listen`
touches: the stored multiaddr and whether a server was created. -/
structure WebRTCDirectListenerState where
  multiaddr : Option String
  serverUp : Bool
deriving DecidableEq, Repr

/-- Model of `WebRTCDirectListener.getAddrs` (`src/listener.ts`). -/
def WebRTCDirectListenerState.getAddrs (st : WebRTCDirectListenerState) : List String :=
  match st.multiaddr with
  | some m => [m]
  | Option.none => []

/-- Model of `WebRTCDirectListener.listen` (`src/listener.ts`): when a multiaddr is
already stored it throws `ERR_ALREADY_LISTENING` before any assignment
(returned as the error component beside the unchanged state); otherwise it
stores the multiaddr and creates the server. -/
def listenerListen (st : WebRTCDirectListenerState) (ma : String) :
    WebRTCDirectListenerState × Option String :=
  if st.multiaddr.isSome then
    (st, some "ERR_ALREADY_LISTENING")
  else
    ({ multiaddr := some ma, serverUp := true }, Option.none)

/-- C1: for a signalling message other than `JoinRequest` arriving on
channel `fromCh` with destination `dst`, the relay first consults the
seen-cache on the raw bytes and drops the message when already seen;
otherwise, when `dst` has an entry in the peer table, the raw bytes are
sent only on that peer's signalling channel and on no relay channel;
otherwise they are sent on every tracked relay signalling channel except
`fromCh` itself. -/
theorem relay_forwarding_rule (hash : Bytes → String) (st : WebRTCDirectServerState)
    (now : Nat) (fromCh : ChannelId) (raw : Bytes) (dst : String) :
    handlePeerSignallingMessage hash st now fromCh raw dst =
      ({ st with seenCache := (isMsgSeen hash st.seenCache now raw).2 },
        if (isMsgSeen hash st.seenCache now raw).1 then []
        else
          match st.peerSignallingChannelMap.lookup dst with
          | some ch => [(ch, raw)]
          | Option.none =>
            (st.relaySignallingChannels.filter (fun c => c != fromCh)).map
              (fun c => (c, raw))) := by
  unfold handlePeerSignallingMessage forwardSignallingMessage
  rcases h : isMsgSeen hash st.seenCache now raw with ⟨seen, cache2⟩
  cases seen <;> simp [h]

/-- C2: the seen-cache observe operation computes the digest of the bytes;
when the digest is present it reports `true` and leaves the cache alone;
when absent it inserts the digest with the default TTL and reports
`false`, so a second observe of the same bytes within the TTL reports
`true`. -/
theorem seen_cache_observe_spec (hash : Bytes → String) (cache : TimedCache)
    (now : Nat) (msg : Bytes) :
    ((cache.get now (hash msg)).isSome = true →
        isMsgSeen hash cache now msg = (true, cache)) ∧
    (cache.get now (hash msg) = Option.none →
        isMsgSeen hash cache now msg = (false, cache.put now (hash msg)) ∧
        ∀ now2, now ≤ now2 → now2 < now + SEEN_CACHE_TTL →
          (isMsgSeen hash (cache.put now (hash msg)) now2 msg).1 = true) := by
  constructor
  · intro h
    rcases hg : cache.get now (hash msg) with _ | v
    · rw [hg] at h; simp at h
    · simp [isMsgSeen, hg]
  · intro h
    refine ⟨by unfold isMsgSeen; simp [h], ?_⟩
    intro now2 _ h2
    unfold isMsgSeen TimedCache.get TimedCache.put
    simp [h2]

/-- C2 witness: a fresh cache reports an observe of some bytes as unseen
and a consecutive observe of the same bytes as seen. -/
theorem seen_cache_observe_spec_witness :
    TimedCache.get ⟨[]⟩ 0 "d" = Option.none ∧
    isMsgSeen (fun _ => "d") ⟨[]⟩ 0 [1, 2] = (false, TimedCache.put ⟨[]⟩ 0 "d") ∧
    (isMsgSeen (fun _ => "d") (TimedCache.put ⟨[]⟩ 0 "d") 0 [1, 2]).1 = true := by
  refine ⟨by decide, ?_, ?_⟩
  · exact ((seen_cache_observe_spec (fun _ => "d") ⟨[]⟩ 0 [1, 2]).2 (by decide)).1
  · exact ((seen_cache_observe_spec (fun _ => "d") ⟨[]⟩ 0 [1, 2]).2 (by decide)).2
      0 (by decide) (by decide)

/-- C8: a `JoinRequest` received on a relay-type signalling channel is
answered by raising an error; the message is dropped, no peer-table entry
is added, nothing is sent, and the handler keeps processing subsequent
messages from the unchanged router state. Both relay-side handlers
(`registerSignallingChannel` and `_registerSignallingChannelHandler` with
relay type) behave this way. -/
theorem relay_join_request_rejected (hash : Bytes → String)
    (st : WebRTCDirectServerState) (now : Nat) (fromCh : ChannelId)
    (raw : Bytes) (pid : String) (rest : List (Bytes × SignallingMessage)) :
    (handleSignallingChannelMessage hash SignallingChannelType.relay st now fromCh raw
        (SignallingMessage.joinRequest pid) =
      Except.error "Unexpected JoinRequest over relay signalling channel") ∧
    (relayChannelHandleMessage hash st now fromCh raw
        (SignallingMessage.joinRequest pid) =
      Except.error "Unexpected JoinRequest over relay signalling channel") ∧
    (processSignallingChannelMessages hash SignallingChannelType.relay st now fromCh
        [(raw, SignallingMessage.joinRequest pid)] = (st, [])) ∧
    (processSignallingChannelMessages hash SignallingChannelType.relay st now fromCh
        ((raw, SignallingMessage.joinRequest pid) :: rest) =
      processSignallingChannelMessages hash SignallingChannelType.relay st now fromCh
        rest) := by
  refine ⟨rfl, rfl, rfl, ?_⟩
  rfl

/-- Invariant of the readiness coordination: folding any event sequence
from a state whose `emitted` flag agrees with `readyFired && deferredResolved`
keeps that agreement, and the two flags track exactly whether the
corresponding events occurred. -/
theorem connEst_foldl_inv (evs : List ConnEvent) :
    ∀ s : ConnEstState, s.emitted = (s.readyFired && s.deferredResolved) →
      ((evs.foldl connEstStep s).readyFired
          = (s.readyFired || evs.contains ConnEvent.ready)) ∧
      ((evs.foldl connEstStep s).deferredResolved
          = (s.deferredResolved || evs.contains ConnEvent.scOpen)) ∧
      ((evs.foldl connEstStep s).emitted
          = ((evs.foldl connEstStep s).readyFired
              && (evs.foldl connEstStep s).deferredResolved)) := by
  induction evs with
  | nil =>
    intro s h
    simpa using h
  | cons e rest ih =>
    intro s h
    cases e with
    | ready =>
      cases hd : s.deferredResolved with
      | true =>
        have step : connEstStep s ConnEvent.ready
            = { s with readyFired := true, emitted := true } := by
          simp [connEstStep, hd]
        rcases ih { s with readyFired := true, emitted := true } (by simp [hd])
          with ⟨h1, h2, h3⟩
        simp only [List.foldl_cons, step] at *
        refine ⟨by simp [h1], by simpa [hd] using h2, h3⟩
      | false =>
        have step : connEstStep s ConnEvent.ready = { s with readyFired := true } := by
          simp [connEstStep, hd]
        rcases ih { s with readyFired := true } (by simp [h, hd]) with ⟨h1, h2, h3⟩
        simp only [List.foldl_cons, step] at *
        refine ⟨by simp [h1], by simpa [hd] using h2, h3⟩
    | scOpen =>
      cases hr : s.readyFired with
      | true =>
        have step : connEstStep s ConnEvent.scOpen
            = { s with deferredResolved := true, emitted := true } := by
          simp [connEstStep, hr]
        rcases ih { s with deferredResolved := true, emitted := true } (by simp [hr])
          with ⟨h1, h2, h3⟩
        simp only [List.foldl_cons, step] at *
        refine ⟨by simpa [hr] using h1, by simp [h2], h3⟩
      | false =>
        have step : connEstStep s ConnEvent.scOpen
            = { s with deferredResolved := true } := by
          simp [connEstStep, hr]
        rcases ih { s with deferredResolved := true } (by simp [h, hr]) with ⟨h1, h2, h3⟩
        simp only [List.foldl_cons, step] at *
        refine ⟨by simpa [hr] using h1, by simp [h2], h3⟩

/-- C3: over any event sequence of one establishment attempt, the
connection is emitted upward exactly when the application data channel
became ready and, if a signalling channel was requested, that channel
reached open; without a requested signalling channel, readiness alone
suffices. -/
theorem connection_emitted_iff_ready_and_sc_open (scRequested : Bool)
    (evs : List ConnEvent) :
    (connEstRun scRequested evs).emitted
      = (evs.contains ConnEvent.ready
          && (!scRequested || evs.contains ConnEvent.scOpen)) := by
  rcases connEst_foldl_inv evs (initConnEstState scRequested)
      (by simp [initConnEstState]) with ⟨h1, h2, h3⟩
  unfold connEstRun
  rw [h3, h1, h2]
  simp [initConnEstState]

/-- C4: on the signalling-channel listener, a `ConnectRequest` carrying an
offer creates a receiver and answers with a `ConnectResponse` on the same
signalling channel, with `src` the request's `dst`, `dst` the request's
`src` and the locally produced answer as signal; `JoinRequest` and
`ConnectResponse` messages produce no reply and no state change. -/
theorem sig_listener_message_spec (st : WebRTCDirectSigServerState)
    (newCh : Nat) (answerSignal : Signal) :
    (∀ sc req, st.signallingChannel = some sc → req.signal.type = "offer" →
      sigHandleMessage st (SignallingMessage.connectRequest req) newCh answerSignal =
        Except.ok ({ st with channels := st.channels ++ [newCh] },
          [(sc, SignallingMessage.connectResponse
            { src := req.dst, dst := req.src, signal := answerSignal })])) ∧
    (∀ pid, sigHandleMessage st (SignallingMessage.joinRequest pid) newCh answerSignal
        = Except.ok (st, [])) ∧
    (∀ resp, sigHandleMessage st (SignallingMessage.connectResponse resp) newCh
        answerSignal = Except.ok (st, [])) := by
  refine ⟨?_, fun pid => rfl, fun resp => rfl⟩
  intro sc req h1 h2
  simp [sigHandleMessage, sigProcessRequest, h1, h2]

/-- C4 witness: a concrete offer-carrying `ConnectRequest` on a registered
signalling channel produces exactly the swapped-endpoint response. -/
theorem sig_listener_message_spec_witness :
    sigHandleMessage ⟨"X", [], some 7⟩
        (SignallingMessage.connectRequest ⟨"A", "B", ⟨"offer", "s"⟩⟩) 1 ⟨"answer", "t"⟩
      = Except.ok (⟨"X", [1], some 7⟩,
          [(7, SignallingMessage.connectResponse ⟨"B", "A", ⟨"answer", "t"⟩⟩)]) :=
  (sig_listener_message_spec ⟨"X", [], some 7⟩ 1 ⟨"answer", "t"⟩).1 7
    ⟨"A", "B", ⟨"offer", "s"⟩⟩ rfl rfl

/-- C5: the remote address of a relayed inbound connection is the
listener's multiaddr extended with the p2p component of the request's
`dst`, and (when the endpoints differ) not the one built from the
request's `src`. -/
theorem sig_remote_addr_uses_request_dst (st : WebRTCDirectSigServerState)
    (request : ConnectRequest) (h : request.src ≠ request.dst) :
    sigReadyRemoteAddr st request = st.multiAddr ++ "/p2p/" ++ request.dst ∧
    sigReadyRemoteAddr st request ≠ st.multiAddr ++ "/p2p/" ++ request.src := by
  refine ⟨rfl, fun hc => h ?_⟩
  have h1 := congrArg String.data hc
  simp only [sigReadyRemoteAddr, String.data_append, List.append_assoc] at h1
  have h2 := List.append_cancel_left (List.append_cancel_left h1)
  cases hd : request.dst
  cases hs : request.src
  rw [hd, hs] at h2
  simp at h2
  exact congrArg String.mk h2.symm

/-- C5 witness: with distinct endpoints the emitted remote address uses the
destination peer id. -/
theorem sig_remote_addr_uses_request_dst_witness :
    sigReadyRemoteAddr ⟨"/ip4/1.2.3.4", [], some 7⟩ ⟨"A", "B", ⟨"offer", "s"⟩⟩
        = "/ip4/1.2.3.4" ++ "/p2p/" ++ "B" ∧
    sigReadyRemoteAddr ⟨"/ip4/1.2.3.4", [], some 7⟩ ⟨"A", "B", ⟨"offer", "s"⟩⟩
        ≠ "/ip4/1.2.3.4" ++ "/p2p/" ++ "A" :=
  sig_remote_addr_uses_request_dst ⟨"/ip4/1.2.3.4", [], some 7⟩
    ⟨"A", "B", ⟨"offer", "s"⟩⟩ (by decide)

/-- C6: given the constructor invariant that a relay peer id is set
whenever signalling is enabled, `dial` errors before creating any engine
instance exactly in two cases: signalling disabled with a star-marked
target (`rejectedAddress`), and signalling enabled with a star-marked
target but no signalling channel to the primary relay
(`relayUnavailable`). -/
theorem dial_precondition_errors (cfg : DialTransportConfig) (ma : DialAddr)
    (hrel : cfg.enableSignalling = true → cfg.relayPeerId ≠ Option.none) :
    (cfg.enableSignalling = false → ma.hasWebRTCStarId = true →
        dialPathSelection cfg ma = Except.error DialError.rejectedAddress) ∧
    (cfg.enableSignalling = true → ma.hasWebRTCStarId = true →
        cfg.signallingChannel = Option.none →
        dialPathSelection cfg ma = Except.error DialError.relayUnavailable) ∧
    (∀ e, dialPathSelection cfg ma = Except.error e →
        (e = DialError.rejectedAddress ∧ cfg.enableSignalling = false
            ∧ ma.hasWebRTCStarId = true) ∨
        (e = DialError.relayUnavailable ∧ cfg.enableSignalling = true
            ∧ ma.hasWebRTCStarId = true ∧ cfg.signallingChannel = Option.none)) := by
  unfold dialPathSelection
  cases hen : cfg.enableSignalling with
  | false =>
    cases hstar : ma.hasWebRTCStarId with
    | false => exact ⟨fun _ h => by simp at h,
        fun h => by simp at h, fun e he => by simp at he⟩
    | true => exact ⟨fun _ _ => rfl, fun h => by simp at h, fun e he => by
        simp at he; exact Or.inl ⟨he.symm, rfl, rfl⟩⟩
  | true =>
    have hrp : cfg.relayPeerId ≠ Option.none := hrel hen
    cases hstar : ma.hasWebRTCStarId with
    | false =>
      refine ⟨fun h => by simp at h, fun _ h => by simp at h, fun e he => ?_⟩
      cases hnt : cfg.nodeType <;> simp [hnt] at he
    | true =>
      cases hsc : cfg.signallingChannel with
      | none =>
        refine ⟨fun h => by simp at h, fun _ _ _ => by simp [hrp], fun e he => ?_⟩
        simp [hrp] at he
        exact Or.inr ⟨he.symm, rfl, rfl, rfl⟩
      | some sc =>
        refine ⟨fun h => by simp at h, fun _ _ h => by simp at h, fun e he => ?_⟩
        simp [hrp] at he

/-- C6 witness: a disabled-signalling transport rejects a star-marked
address, and an enabled one without a signalling channel reports the relay
unavailable. -/
theorem dial_precondition_errors_witness :
    dialPathSelection ⟨false, WebRTCDirectNodeType.peer, Option.none, Option.none⟩
        ⟨true, Option.none⟩ = Except.error DialError.rejectedAddress ∧
    dialPathSelection ⟨true, WebRTCDirectNodeType.peer, some "R", Option.none⟩
        ⟨true, some "P"⟩ = Except.error DialError.relayUnavailable :=
  ⟨(dial_precondition_errors _ _ (by decide)).1 rfl rfl,
    (dial_precondition_errors _ _ (by decide)).2.1 rfl rfl rfl⟩

/-- C7: when a peer-type signalling channel opens on the dial side, the
open handler sends exactly one `JoinRequest` carrying the node's own peer
id, registers the channel with the local listener (when one is present)
and starts the channel health monitor; when a relay-type channel opens,
registration and monitor start happen but nothing is sent. -/
theorem sc_open_handler_spec (selfPeerId : String) (listenerPresent : Bool)
    (h : listenerPresent = true) :
    (sentMessages (signallingChannelOpenActions SignallingChannelType.peer selfPeerId
        listenerPresent) = [SignallingMessage.joinRequest selfPeerId]) ∧
    SCAction.registerWithListener ∈
      signallingChannelOpenActions SignallingChannelType.peer selfPeerId listenerPresent ∧
    SCAction.startClosingInterval ∈
      signallingChannelOpenActions SignallingChannelType.peer selfPeerId listenerPresent ∧
    (sentMessages (signallingChannelOpenActions SignallingChannelType.relay selfPeerId
        listenerPresent) = []) ∧
    SCAction.registerWithListener ∈
      signallingChannelOpenActions SignallingChannelType.relay selfPeerId listenerPresent ∧
    SCAction.startClosingInterval ∈
      signallingChannelOpenActions SignallingChannelType.relay selfPeerId listenerPresent := by
  subst h
  refine ⟨?_, ?_, ?_, ?_, ?_, ?_⟩ <;>
    simp [signallingChannelOpenActions, sentMessages, List.filterMap_append]

/-- C7 witness: the open-handler effects at a concrete peer id with a
listener present. -/
theorem sc_open_handler_spec_witness :
    sentMessages (signallingChannelOpenActions SignallingChannelType.peer "QmSelf" true)
        = [SignallingMessage.joinRequest "QmSelf"] ∧
    sentMessages (signallingChannelOpenActions SignallingChannelType.relay "QmSelf" true)
        = [] :=
  ⟨(sc_open_handler_spec "QmSelf" true rfl).1,
    (sc_open_handler_spec "QmSelf" true rfl).2.2.2.1⟩

/-- C9: the transport's address filter returns a sublist of its input (so
every returned address is an input element, in input order, without added
duplicates) and is idempotent; as a pure function it leaves its input
untouched. -/
theorem filter_sublist_and_idempotent (enableSignalling : Bool)
    (relayPeerId : Option String) (mas : List MAddr) :
    (wdFilter enableSignalling relayPeerId mas).Sublist mas ∧
    wdFilter enableSignalling relayPeerId (wdFilter enableSignalling relayPeerId mas)
      = wdFilter enableSignalling relayPeerId mas := by
  constructor
  · exact List.filter_sublist mas
  · unfold wdFilter
    rw [List.filter_filter]
    simp [Bool.and_self]

/-- C10: calling `listen` on a listener whose multiaddr is already set
throws `ERR_ALREADY_LISTENING` and leaves the listener's state — stored
multiaddr, server and `getAddrs` result — unchanged. -/
theorem listen_already_listening (st : WebRTCDirectListenerState) (ma m : String)
    (h : st.multiaddr = some m) :
    listenerListen st ma = (st, some "ERR_ALREADY_LISTENING") ∧
    (listenerListen st ma).1.getAddrs = [m] := by
  refine ⟨by simp [listenerListen, h], ?_⟩
  simp [listenerListen, h, WebRTCDirectListenerState.getAddrs]

/-- C10 witness: a listener already bound to a concrete multiaddr rejects a
second `listen` unchanged. -/
theorem listen_already_listening_witness :
    listenerListen ⟨some "/ip4/1.2.3.4/tcp/1", true⟩ "/ip4/5.6.7.8/tcp/2"
        = (⟨some "/ip4/1.2.3.4/tcp/1", true⟩, some "ERR_ALREADY_LISTENING") ∧
    (listenerListen ⟨some "/ip4/1.2.3.4/tcp/1", true⟩ "/ip4/5.6.7.8/tcp/2").1.getAddrs
        = ["/ip4/1.2.3.4/tcp/1"] :=
  listen_already_listening ⟨some "/ip4/1.2.3.4/tcp/1", true⟩ "/ip4/5.6.7.8/tcp/2"
    "/ip4/1.2.3.4/tcp/1" rfl

end WebRTCDirect
